import Mathlib

/-!
Shallow embedding of the DeepRecurse MCP worker gateway
(`src/cloudflare/worker-gateway/src/index.ts`).

The embedding models, faithfully to the TypeScript source:
* the `ChatStore` durable object (per-key append-only text log);
* the `RlmContainer` retry loop (20 connection attempts, 250 ms delay
  after each failed attempt) and the `callRlm` response handling;
* the JSON-RPC dispatcher `handleOneRpc` (lifecycle methods, the
  `chat_rlm_query` and `upload_context` tools) with explicit state
  passing for the durable store and an effect trace recording which
  reads / backend calls / appends were attempted;
* the batch branch of `handleMcp` (array bodies), including the
  re-parse of each per-item `Response` via `resp.json()`.

Effectful collaborators that live outside the worker (transport
failures of the durable-object fetches, the backend's answer) are
passed in as explicit oracles (`ChatDeps`, `ConnOutcome`), so every
function here is pure and executable.
-/

/- ----------------------- JavaScript string helpers ----------------------- -/

/-- JavaScript `String.prototype.trim()` as used by the worker on tool
arguments: strips leading and trailing whitespace. Defined directly on
the character list so that it evaluates inside the kernel. -/
def jsTrim (s : String) : String :=
  ⟨((s.data.dropWhile Char.isWhitespace).reverse.dropWhile
      Char.isWhitespace).reverse⟩

/-- JavaScript `String.prototype.slice(0, n)`: the first `n` characters
(the whole string when shorter). -/
def jsSlice (s : String) (n : Nat) : String := ⟨s.data.take n⟩

/- ----------------------- Context store (ChatStore) ----------------------- -/

/-- The family of `ChatStore` durable-object instances: `idFromName`
maps each thread key to its own instance, whose storage holds the text
under the single storage key `"chat"`; `get ?? ""` makes a never-written
key read as the empty string. -/
structure Store where
  logs : String → String

/-- Initial state: no key has ever been written, every read yields `""`
(`(await this.state.storage.get("chat")) ?? ""`). -/
def Store.init : Store := ⟨fun _ => ""⟩

/-- `GET /read` on the instance for `k`: returns the stored chat text. -/
def Store.read (s : Store) (k : String) : String := s.logs k

/-- `POST /append` on the instance for `k`: stores `current ++ text`
(`const next = current + text; storage.put("chat", next)`). -/
def Store.append (s : Store) (k : String) (t : String) : Store :=
  ⟨fun k' => if k' = k then s.logs k ++ t else s.logs k'⟩

/-- A sequence of acknowledged appends, applied in order. -/
def Store.applyAppends (s : Store) : List (String × String) → Store
  | [] => s
  | (k, t) :: rest => Store.applyAppends (s.append k t) rest

/- ----------------- ChatStore `/append` body handling ----------------- -/

/-- A JSON value as it arrives in the `/append` body's `text` field.
The worker casts the payload to `{ text?: string }` without a runtime
check, so non-string values flow through untouched. -/
inductive JVal where
  | s (v : String)
  | n (v : Int)
  | b (v : Bool)
  | null
deriving DecidableEq, Repr

/-- JavaScript template-literal stringification of a `JVal`
(numbers print in decimal, booleans as `true`/`false`). -/
def JVal.jsString : JVal → String
  | .s v => v
  | .n v => toString v
  | .b true => "true"
  | .b false => "false"
  | .null => "null"

/-- The `/append` branch of `ChatStore.fetch`: reads `payload.text ?? ""`
(nullish coalescing, so only an absent or `null` field becomes `""`),
appends it to the current log, and returns `{ ok: true }` unconditionally.
Result: (new stored log, the `ok` flag). -/
def chatStoreAppend (text? : Option JVal) (current : String) : String × Bool :=
  let t : String :=
    match text? with
    | none => ""
    | some .null => ""
    | some v => v.jsString
  (current ++ t, true)

/- -------------------- Backend proxy (RlmContainer) -------------------- -/

/-- The outcome of one `port.fetch` attempt inside `RlmContainer.fetch`:
either the fetch throws (connection failure, carrying the thrown
message) or it yields a response with a status and a body text. -/
inductive ConnOutcome where
  | conthrow (msg : String)
  | resp (status : Nat) (body : String)
deriving DecidableEq, Repr

/-- What the retry loop of `RlmContainer.fetch` produces: the response
handed back to the caller (status and body), how many `port.fetch`
attempts were made, and the total milliseconds spent in the
`setTimeout(r, 250)` delays (one 250 ms delay after each failed
attempt). -/
structure RlmOut where
  status : Nat
  body : String
  attempts : Nat
  delayMs : Nat
deriving DecidableEq, Repr

/-- The loop `for (attempt = 0; attempt < 20; attempt++)` of
`RlmContainer.fetch`, parametrised by the remaining fuel and the index
of the next attempt: a successful `port.fetch` returns its response
immediately; a thrown error is recorded as `lastError` and is followed
by a 250 ms delay; when the fuel runs out the loop falls through to
`new Response(String(lastError ?? "Container failed to accept connections"),
{ status: 502 })`. -/
def rlmRetry (conn : Nat → ConnOutcome) : Nat → Nat → Option String → RlmOut
  | 0, _, lastError =>
      { status := 502
        body := lastError.getD "Container failed to accept connections"
        attempts := 0
        delayMs := 0 }
  | fuel + 1, idx, _lastError =>
      match conn idx with
      | .resp st b => { status := st, body := b, attempts := 1, delayMs := 0 }
      | .conthrow m =>
          let r := rlmRetry conn fuel (idx + 1) (some m)
          { r with attempts := r.attempts + 1, delayMs := r.delayMs + 250 }

/-- `RlmContainer.fetch` on `/rlm`: 20 attempts starting at index 0 with
no `lastError` yet. -/
def rlmContainerFetch (conn : Nat → ConnOutcome) : RlmOut :=
  rlmRetry conn 20 0 none

/- ----------------------- callRlm ----------------------- -/

/-- The response `callRlm` receives from the `RlmContainer` stub:
HTTP status, raw body text (`resp.text()`), and the `answer` field of
the parsed JSON body (`resp.json()`), `none` when the field is absent. -/
structure BackendResponse where
  status : Nat
  bodyText : String
  answer : Option JVal
deriving DecidableEq, Repr

/-- `Response.ok`: status in the inclusive range 200–299. -/
def respOk (status : Nat) : Bool := decide (200 ≤ status ∧ status ≤ 299)

/-- `callRlm` after the stub fetch: a non-ok response throws
`RLM backend error (<status>): <body truncated to 400>` (the source's
`detail.slice(0, 400)`); an ok response must carry a string-typed
`answer` field, otherwise `Invalid RLM response` is thrown; on success
the answer string is returned. -/
def callRlm (resp : BackendResponse) : Except String String :=
  if respOk resp.status then
    match resp.answer with
    | some (.s a) => .ok a
    | _ => .error "Invalid RLM response"
  else
    .error ("RLM backend error (" ++ toString resp.status ++ "): "
      ++ jsSlice resp.bodyText 400)

/-- The composition the dispatcher actually exercises: the stub fetch
runs `RlmContainer.fetch`'s retry loop, and `callRlm` then inspects the
resulting response, with `parse` modelling how `resp.json()` reads the
`answer` field out of the body text. Returns the call outcome together
with the attempt count and total delay of the retry loop. -/
def proxyCall (conn : Nat → ConnOutcome) (parse : String → Option JVal) :
    Except String String × Nat × Nat :=
  let r := rlmContainerFetch conn
  (callRlm { status := r.status, bodyText := r.body, answer := parse r.body },
   r.attempts, r.delayMs)

/- ----------------------- JSON-RPC envelopes ----------------------- -/

/-- `JsonRpcId = string | number | null` from the source. -/
inductive JsonRpcId where
  | str (s : String)
  | num (n : Int)
  | null
deriving DecidableEq, Repr

/-- The `arguments` object of `ToolCallParams`: every field optional,
absent fields modelled as `none`. -/
structure ToolArgs where
  query : Option String := none
  thread_id : Option String := none
  transcript : Option String := none
  session_id : Option String := none
  developer : Option String := none
deriving DecidableEq, Repr

/-- `ToolCallParams`: tool name plus optional arguments. A `name` that
is absent (or not one of the two known tools) falls through to the
`Unknown tool` error. -/
structure ToolCallParams where
  name : Option String := none
  arguments : Option ToolArgs := none
deriving DecidableEq, Repr

/-- A parsed JSON-RPC request envelope. `method : Option String` models
the `typeof rpc.method !== "string"` check (a missing or non-string
method is `none`); an absent `id` is `none`. -/
structure JsonRpcRequest where
  jsonrpc : String
  id : Option JsonRpcId := none
  method : Option String := none
  params : Option ToolCallParams := none
deriving DecidableEq, Repr

/-- `const id = rpc.id ?? null`: an absent identifier becomes `null`
(an explicitly-null identifier already is `null`). -/
def JsonRpcRequest.effId (rpc : JsonRpcRequest) : JsonRpcId :=
  rpc.id.getD .null

/-- The distinct result payloads `handleOneRpc` can produce. The static
payloads (`initialize`, `tools/list`, ...) are represented by tags, the
tool results by their `content[0].text` string. -/
inductive RpcResult where
  | initializeResult
  | emptyResult
  | resourcesList
  | promptsList
  | toolsList
  | content (text : String)
deriving DecidableEq, Repr

/-- The HTTP response of `handleOneRpc`: either the body-less
`new Response(null, { status: 202 })` acknowledgement, or a JSON-RPC
result / error envelope carrying an identifier. -/
inductive RpcResponse where
  | ack
  | result (id : JsonRpcId) (v : RpcResult)
  | error (id : JsonRpcId) (code : Int) (msg : String)
deriving DecidableEq, Repr

/-- The identifier carried by a response body (`none` for the body-less
acknowledgement). -/
def RpcResponse.idOf : RpcResponse → Option JsonRpcId
  | .ack => none
  | .result i _ => some i
  | .error i _ _ => some i

/-- Which side effects a dispatch attempted, in order of occurrence:
context reads (thread key), backend calls (context, query, thread key),
and append attempts (store key, text). -/
structure Trace where
  reads : List String := []
  calls : List (String × String × String) := []
  appends : List (String × String) := []
deriving DecidableEq, Repr

/-- Oracles for the effectful collaborators of a tool call: whether the
`ChatStore` read / append fetches succeed (their failure messages are
fixed in the source), and the backend's outcome as a function of the
context, query and thread id it is sent. -/
structure ChatDeps where
  readOk : Bool
  rlm : String → String → String → Except String String
  appendOk : Bool

/-- Result of dispatching one envelope: the HTTP response, the durable
store afterwards, and the trace of attempted effects. -/
structure DispatchOut where
  response : RpcResponse
  store : Store
  trace : Trace

def sQuote : String := String.singleton (Char.ofNat 39)

/-- The confirmation message of `upload_context`, with the thread name
in single quotes as in the source template literal. -/
def uploadMsg (sid developer threadId : String) : String :=
  "Uploaded session " ++ sid ++ " (developer=" ++ developer
    ++ ") to thread " ++ sQuote ++ threadId ++ sQuote ++ "."

/-- The `chat_rlm_query` branch of `tools/call`: trims `query` and
`thread_id`, rejects a missing-or-empty value with `-32602`; otherwise
reads the context, calls the backend, and appends the formatted turn
(`USER:`/`ASSISTANT:` with a leading newline only when prior context is
non-empty); any thrown failure is caught and mapped to `-32000` with
the underlying message. -/
def chatRlmQuery (deps : ChatDeps) (st : Store) (id : JsonRpcId)
    (args : Option ToolArgs) : DispatchOut :=
  let query? := (args.bind fun a => a.query).map jsTrim
  let thread? := (args.bind fun a => a.thread_id).map jsTrim
  match query?, thread? with
  | some q, some t =>
      if q = "" ∨ t = "" then
        ⟨.error id (-32602) "query and thread_id are required", st, {}⟩
      else if deps.readOk then
        let context := st.read t
        match deps.rlm context q t with
        | .error e =>
            ⟨.error id (-32000) e, st,
             { reads := [t], calls := [(context, q, t)] }⟩
        | .ok answer =>
            let turnText := (if context = "" then "" else "\n")
              ++ "USER: " ++ q ++ "\nASSISTANT: " ++ answer ++ "\n"
            if deps.appendOk then
              ⟨.result id (.content answer), st.append t turnText,
               { reads := [t], calls := [(context, q, t)],
                 appends := [(t, turnText)] }⟩
            else
              ⟨.error id (-32000) "Failed to append chat context", st,
               { reads := [t], calls := [(context, q, t)],
                 appends := [(t, turnText)] }⟩
      else
        ⟨.error id (-32000) "Failed to read chat context", st,
         { reads := [t] }⟩
  | _, _ => ⟨.error id (-32602) "query and thread_id are required", st, {}⟩

/-- The `upload_context` branch of `tools/call`: trims `transcript` and
`session_id` (required), defaults a missing or trim-empty `thread_id`
to `transcripts` and a missing or empty `developer` (not trimmed) to
`unknown`, appends the tagged block under the key
`threadId ++ "/" ++ sessionId`, and returns the confirmation message. -/
def uploadContext (deps : ChatDeps) (st : Store) (id : JsonRpcId)
    (args : Option ToolArgs) : DispatchOut :=
  let transcript? := (args.bind fun a => a.transcript).map jsTrim
  let session? := (args.bind fun a => a.session_id).map jsTrim
  let threadId :=
    match (args.bind fun a => a.thread_id).map jsTrim with
    | none => "transcripts"
    | some t => if t = "" then "transcripts" else t
  let developer :=
    match args.bind fun a => a.developer with
    | none => "unknown"
    | some d => if d = "" then "unknown" else d
  match transcript?, session? with
  | some tr, some sid =>
      if tr = "" ∨ sid = "" then
        ⟨.error id (-32602) "transcript and session_id are required", st, {}⟩
      else
        let storeKey := threadId ++ "/" ++ sid
        let turnText := "\n[SESSION UPLOAD] " ++ sid ++ " (developer: "
          ++ developer ++ ")\n" ++ tr ++ "\n"
        if deps.appendOk then
          ⟨.result id (.content (uploadMsg sid developer threadId)),
           st.append storeKey turnText, { appends := [(storeKey, turnText)] }⟩
        else
          ⟨.error id (-32000) "Failed to append chat context", st,
           { appends := [(storeKey, turnText)] }⟩
  | _, _ => ⟨.error id (-32602) "transcript and session_id are required", st, {}⟩

/-- `handleOneRpc`: version/method-shape validation, then the method
chain in source order. Only the method `notifications/initialized`
short-circuits to the body-less 202 acknowledgement; every other path
produces a result or error envelope carrying `rpc.id ?? null`. -/
def handleOneRpc (deps : ChatDeps) (st : Store) (rpc : JsonRpcRequest) :
    DispatchOut :=
  match rpc.method with
  | none => ⟨.error rpc.effId (-32600) "Invalid Request", st, {}⟩
  | some m =>
      if rpc.jsonrpc ≠ "2.0" then ⟨.error rpc.effId (-32600) "Invalid Request", st, {}⟩
      else if m = "notifications/initialized" then ⟨.ack, st, {}⟩
      else if m = "initialize" then ⟨.result rpc.effId .initializeResult, st, {}⟩
      else if m = "ping" then ⟨.result rpc.effId .emptyResult, st, {}⟩
      else if m = "resources/list" then ⟨.result rpc.effId .resourcesList, st, {}⟩
      else if m = "prompts/list" then ⟨.result rpc.effId .promptsList, st, {}⟩
      else if m = "tools/list" then ⟨.result rpc.effId .toolsList, st, {}⟩
      else if m = "tools/call" then
        if (rpc.params.getD {}).name = some "chat_rlm_query" then
          chatRlmQuery deps st rpc.effId (rpc.params.getD {}).arguments
        else if (rpc.params.getD {}).name = some "upload_context" then
          uploadContext deps st rpc.effId (rpc.params.getD {}).arguments
        else ⟨.error rpc.effId (-32602) "Unknown tool", st, {}⟩
      else ⟨.error rpc.effId (-32601) "Method not found", st, {}⟩

/-- An envelope that takes the acknowledgement path: version `2.0` and
method exactly `notifications/initialized` (the source checks the
method name, not whether the identifier is absent). -/
def isInitNotif (rpc : JsonRpcRequest) : Bool :=
  decide (rpc.jsonrpc = "2.0" ∧ rpc.method = some "notifications/initialized")

/- ----------------------- Batch mode (handleMcp) ----------------------- -/

/-- An element of a JSON array request body: either not an object
(skipped by the `continue`) or an envelope. -/
inductive BatchItem where
  | nonObject
  | rpc (r : JsonRpcRequest)

/-- A JSON-RPC body as re-parsed out of a per-item `Response` in the
batch loop. -/
inductive RpcPayload where
  | result (id : JsonRpcId) (v : RpcResult)
  | error (id : JsonRpcId) (code : Int) (msg : String)
deriving DecidableEq, Repr

/-- `resp.json()` on a plain JSON per-item response: the 202
acknowledgement has an empty body, so `JSON.parse` throws and the
`catch` yields `null`; result / error envelopes re-parse to their
payload. -/
def respPayload : RpcResponse → Option RpcPayload
  | .ack => none
  | .result i v => some (.result i v)
  | .error i c m => some (.error i c m)

/-- `resp.json()` on a per-item response as built in the batch loop:
the loop hands `handleOneRpc` a clone of the original request (same
`Accept` header), so when the caller negotiated SSE the per-item body
is the SSE framing text, which `JSON.parse` rejects — the `catch`
yields `null` and the entry is dropped. -/
def itemJson (sse : Bool) (r : RpcResponse) : Option RpcPayload :=
  if sse then none else respPayload r

/-- The `for (const item of body)` loop of `handleMcp`'s array branch:
sequential, threading the durable store, pushing each re-parsed
non-null body. -/
def mcpBatchLoop (deps : ChatDeps) (sse : Bool) :
    Store → List BatchItem → List RpcPayload × Store
  | st, [] => ([], st)
  | st, .nonObject :: rest => mcpBatchLoop deps sse st rest
  | st, .rpc r :: rest =>
      let out := handleOneRpc deps st r
      let next := mcpBatchLoop deps sse out.store rest
      ((itemJson sse out.response).toList ++ next.1, next.2)

/-- The HTTP response of the array branch: `Response.json(responses)`,
so never SSE-framed, whatever the caller's `Accept` said. -/
structure McpHttpOut where
  isSse : Bool
  payloads : List RpcPayload
deriving DecidableEq, Repr

/-- The `Array.isArray(body)` branch of `handleMcp`. -/
def handleMcpArray (deps : ChatDeps) (sse : Bool) (st : Store)
    (items : List BatchItem) : McpHttpOut × Store :=
  let r := mcpBatchLoop deps sse st items
  ({ isSse := false, payloads := r.1 }, r.2)

/- ----------------------- Helper lemmas ----------------------- -/

/-- The two-line turn block `chat_rlm_query` appends. -/
def chatTurn (context q A : String) : String :=
  (if context = "" then "" else "\n") ++ "USER: " ++ q
    ++ "\nASSISTANT: " ++ A ++ "\n"

lemma Store.read_append_self (s : Store) (k t : String) :
    (s.append k t).read k = s.read k ++ t := by
  simp [Store.read, Store.append]

lemma Store.read_applyAppends_not_mem (k : String) :
    ∀ (ops : List (String × String)) (s : Store),
      k ∉ ops.map Prod.fst →
      (Store.applyAppends s ops).read k = s.read k := by
  intro ops
  induction ops with
  | nil => intro s _; rfl
  | cons p rest ih =>
      intro s h
      simp only [List.map_cons, List.mem_cons] at h
      push_neg at h
      obtain ⟨h1, h2⟩ := h
      rw [Store.applyAppends, ih _ h2]
      simp [Store.read, Store.append, h1]

lemma chatRlmQuery_success
    (deps : ChatDeps) (st : Store) (id : JsonRpcId) (args : ToolArgs)
    (q t A : String)
    (hq : args.query = some q) (ht : args.thread_id = some t)
    (hq' : jsTrim q ≠ "") (ht' : jsTrim t ≠ "")
    (hread : deps.readOk = true)
    (hA : deps.rlm (st.read (jsTrim t)) (jsTrim q) (jsTrim t) = .ok A)
    (happ : deps.appendOk = true) :
    chatRlmQuery deps st id (some args) =
      ⟨.result id (.content A),
       st.append (jsTrim t) (chatTurn (st.read (jsTrim t)) (jsTrim q) A),
       { reads := [jsTrim t],
         calls := [(st.read (jsTrim t), jsTrim q, jsTrim t)],
         appends := [(jsTrim t, chatTurn (st.read (jsTrim t)) (jsTrim q) A)] }⟩ := by
  obtain ⟨oq, ot, otr, os, od⟩ := args
  have h1 : oq = some q := hq
  have h2 : ot = some t := ht
  subst h1 h2
  unfold chatRlmQuery
  simp only [Option.some_bind, Option.map_some', hread, hA, happ]
  rw [if_neg (by push_neg; exact ⟨hq', ht'⟩)]
  simp [chatTurn, Store.read]

lemma chatRlmQuery_invalid (deps : ChatDeps) (st : Store) (id : JsonRpcId)
    (args : Option ToolArgs)
    (h : (args.bind fun a => a.query).map jsTrim = none ∨
         (args.bind fun a => a.query).map jsTrim = some "" ∨
         (args.bind fun a => a.thread_id).map jsTrim = none ∨
         (args.bind fun a => a.thread_id).map jsTrim = some "") :
    chatRlmQuery deps st id args =
      ⟨.error id (-32602) "query and thread_id are required", st, {}⟩ := by
  unfold chatRlmQuery
  rcases hq : (args.bind fun a => a.query).map jsTrim with _ | q <;>
    rcases ht : (args.bind fun a => a.thread_id).map jsTrim with _ | t <;>
      simp only [hq, ht] at h ⊢ <;>
      try rfl
  rcases h with h | h | h | h <;> simp_all

lemma chatRlmQuery_readFail
    (deps : ChatDeps) (st : Store) (id : JsonRpcId) (args : ToolArgs)
    (q t : String)
    (hq : args.query = some q) (ht : args.thread_id = some t)
    (hq' : jsTrim q ≠ "") (ht' : jsTrim t ≠ "")
    (hread : deps.readOk = false) :
    chatRlmQuery deps st id (some args) =
      ⟨.error id (-32000) "Failed to read chat context", st,
       { reads := [jsTrim t] }⟩ := by
  obtain ⟨oq, ot, otr, os, od⟩ := args
  have h1 : oq = some q := hq
  have h2 : ot = some t := ht
  subst h1 h2
  unfold chatRlmQuery
  simp only [Option.some_bind, Option.map_some', hread]
  rw [if_neg (by push_neg; exact ⟨hq', ht'⟩)]
  simp

lemma chatRlmQuery_rlmFail
    (deps : ChatDeps) (st : Store) (id : JsonRpcId) (args : ToolArgs)
    (q t e : String)
    (hq : args.query = some q) (ht : args.thread_id = some t)
    (hq' : jsTrim q ≠ "") (ht' : jsTrim t ≠ "")
    (hread : deps.readOk = true)
    (hA : deps.rlm (st.read (jsTrim t)) (jsTrim q) (jsTrim t) = .error e) :
    chatRlmQuery deps st id (some args) =
      ⟨.error id (-32000) e, st,
       { reads := [jsTrim t],
         calls := [(st.read (jsTrim t), jsTrim q, jsTrim t)] }⟩ := by
  obtain ⟨oq, ot, otr, os, od⟩ := args
  have h1 : oq = some q := hq
  have h2 : ot = some t := ht
  subst h1 h2
  unfold chatRlmQuery
  simp only [Option.some_bind, Option.map_some', hread, hA]
  rw [if_neg (by push_neg; exact ⟨hq', ht'⟩)]
  simp [Store.read]

lemma chatRlmQuery_appendFail
    (deps : ChatDeps) (st : Store) (id : JsonRpcId) (args : ToolArgs)
    (q t A : String)
    (hq : args.query = some q) (ht : args.thread_id = some t)
    (hq' : jsTrim q ≠ "") (ht' : jsTrim t ≠ "")
    (hread : deps.readOk = true)
    (hA : deps.rlm (st.read (jsTrim t)) (jsTrim q) (jsTrim t) = .ok A)
    (happ : deps.appendOk = false) :
    chatRlmQuery deps st id (some args) =
      ⟨.error id (-32000) "Failed to append chat context", st,
       { reads := [jsTrim t],
         calls := [(st.read (jsTrim t), jsTrim q, jsTrim t)],
         appends := [(jsTrim t, chatTurn (st.read (jsTrim t)) (jsTrim q) A)] }⟩ := by
  obtain ⟨oq, ot, otr, os, od⟩ := args
  have h1 : oq = some q := hq
  have h2 : ot = some t := ht
  subst h1 h2
  unfold chatRlmQuery
  simp only [Option.some_bind, Option.map_some', hread, hA, happ]
  rw [if_neg (by push_neg; exact ⟨hq', ht'⟩)]
  simp [chatTurn, Store.read]

lemma uploadContext_success
    (deps : ChatDeps) (st : Store) (id : JsonRpcId) (args : ToolArgs)
    (tr sid : String)
    (htr : args.transcript = some tr) (hs : args.session_id = some sid)
    (htr' : jsTrim tr ≠ "") (hs' : jsTrim sid ≠ "")
    (happ : deps.appendOk = true) :
    uploadContext deps st id (some args) =
      (let threadId := match args.thread_id with
         | none => "transcripts"
         | some u => if jsTrim u = "" then "transcripts" else jsTrim u
       let developer := match args.developer with
         | none => "unknown"
         | some d => if d = "" then "unknown" else d
       let storeKey := threadId ++ "/" ++ jsTrim sid
       let turnText := "\n[SESSION UPLOAD] " ++ jsTrim sid ++ " (developer: "
         ++ developer ++ ")\n" ++ jsTrim tr ++ "\n"
       ⟨.result id (.content (uploadMsg (jsTrim sid) developer threadId)),
        st.append storeKey turnText, { appends := [(storeKey, turnText)] }⟩) := by
  obtain ⟨oq, ot, otr, os, od⟩ := args
  have h1 : otr = some tr := htr
  have h2 : os = some sid := hs
  subst h1 h2
  unfold uploadContext
  simp only [Option.some_bind, Option.map_some', happ]
  rw [if_neg (by push_neg; exact ⟨htr', hs'⟩)]
  cases ot <;> cases od <;> simp
  all_goals exact ⟨rfl, rfl⟩

lemma chatRlmQuery_idOf (deps : ChatDeps) (st : Store) (id : JsonRpcId)
    (args : Option ToolArgs) :
    (chatRlmQuery deps st id args).response.idOf = some id := by
  unfold chatRlmQuery
  rcases hq : (args.bind fun a => a.query).map jsTrim with _ | q <;>
    rcases ht : (args.bind fun a => a.thread_id).map jsTrim with _ | t <;>
      simp only [hq, ht] <;>
      repeat' split
  all_goals simp [RpcResponse.idOf]

lemma uploadContext_idOf (deps : ChatDeps) (st : Store) (id : JsonRpcId)
    (args : Option ToolArgs) :
    (uploadContext deps st id args).response.idOf = some id := by
  unfold uploadContext
  rcases hq : (args.bind fun a => a.transcript).map jsTrim with _ | tr <;>
    rcases ht : (args.bind fun a => a.session_id).map jsTrim with _ | sid <;>
      simp only [hq, ht] <;>
      repeat' split
  all_goals simp [RpcResponse.idOf]

lemma handleOneRpc_ack (deps : ChatDeps) (st : Store) (rpc : JsonRpcRequest)
    (h : isInitNotif rpc = true) :
    handleOneRpc deps st rpc = ⟨.ack, st, {}⟩ := by
  simp only [isInitNotif, decide_eq_true_eq] at h
  obtain ⟨hv, hm⟩ := h
  unfold handleOneRpc
  split
  next hm2 => rw [hm2] at hm; exact absurd hm (by simp)
  next m hm2 =>
    rw [hm2] at hm
    have hm3 : m = "notifications/initialized" := Option.some.inj hm
    subst hm3
    rw [if_neg (by simp [hv]), if_pos rfl]

lemma handleOneRpc_idOf (deps : ChatDeps) (st : Store) (rpc : JsonRpcRequest)
    (h : isInitNotif rpc = false) :
    (handleOneRpc deps st rpc).response.idOf = some rpc.effId := by
  simp only [isInitNotif, decide_eq_false_iff_not, not_and] at h
  unfold handleOneRpc
  split
  · rfl
  next m hm =>
    by_cases hv : rpc.jsonrpc = "2.0"
    · have hm' : ¬ m = "notifications/initialized" := by
        intro hc
        exact (h hv) (by rw [hm, hc])
      rw [if_neg (by simp [hv])]
      rw [if_neg hm']
      repeat' split
      all_goals first
        | rfl
        | exact chatRlmQuery_idOf ..
        | exact uploadContext_idOf ..
    · rw [if_pos (by simp [hv])]
      rfl

lemma rlmRetry_allThrow (conn : Nat → ConnOutcome) (m : Nat → String) :
    ∀ (fuel idx : Nat) (le : Option String),
      (∀ i, idx ≤ i → i < idx + fuel → conn i = .conthrow (m i)) → fuel ≠ 0 →
      rlmRetry conn fuel idx le =
        { status := 502, body := m (idx + fuel - 1), attempts := fuel,
          delayMs := 250 * fuel } := by
  intro fuel
  induction fuel with
  | zero => intro idx le _ h0; exact absurd rfl h0
  | succ n ih =>
      intro idx le hconn _
      have hc : conn idx = .conthrow (m idx) := hconn idx le_rfl (by omega)
      unfold rlmRetry
      simp only [hc]
      by_cases hn : n = 0
      · subst hn
        simp [rlmRetry]
      · rw [ih (idx + 1) (some (m idx))
            (fun i h1 h2 => hconn i (by omega) (by omega)) hn]
        have hb : idx + 1 + n - 1 = idx + (n + 1) - 1 := by omega
        simp [hb, Nat.mul_succ]

lemma rlmRetry_firstResp (conn : Nat → ConnOutcome) (idx fuel : Nat)
    (le : Option String) (st : Nat) (b : String)
    (hc : conn idx = .resp st b) :
    rlmRetry conn (fuel + 1) idx le =
      { status := st, body := b, attempts := 1, delayMs := 0 } := by
  unfold rlmRetry
  simp only [hc]

def RpcPayload.idOf : RpcPayload → JsonRpcId
  | .result i _ => i
  | .error i _ _ => i

lemma mcpBatchLoop_append (deps : ChatDeps) (sse : Bool) (xs ys : List BatchItem) :
    ∀ st, mcpBatchLoop deps sse st (xs ++ ys) =
      ((mcpBatchLoop deps sse st xs).1
         ++ (mcpBatchLoop deps sse (mcpBatchLoop deps sse st xs).2 ys).1,
       (mcpBatchLoop deps sse (mcpBatchLoop deps sse st xs).2 ys).2) := by
  induction xs with
  | nil => intro st; simp [mcpBatchLoop]
  | cons x rest ih =>
      intro st
      cases x <;> simp [mcpBatchLoop, ih, List.append_assoc]

lemma mcpBatchLoop_sse (deps : ChatDeps) (items : List BatchItem) :
    ∀ st, (mcpBatchLoop deps true st items).1 = [] := by
  induction items with
  | nil => intro st; rfl
  | cons x rest ih => intro st; cases x <;> simp [mcpBatchLoop, itemJson, ih]

lemma mcpBatchLoop_one_rpc (deps : ChatDeps) (st : Store) (r : JsonRpcRequest) :
    mcpBatchLoop deps false st [BatchItem.rpc r] =
      ((respPayload (handleOneRpc deps st r).response).toList,
       (handleOneRpc deps st r).store) := by
  simp [mcpBatchLoop, itemJson]

lemma mcpBatchLoop_one_nonInit (deps : ChatDeps) (st : Store) (r : JsonRpcRequest)
    (h : isInitNotif r = false) :
    ∃ p : RpcPayload, p.idOf = r.effId ∧
      mcpBatchLoop deps false st [BatchItem.rpc r] =
        ([p], (handleOneRpc deps st r).store) := by
  have hid := handleOneRpc_idOf deps st r h
  rcases hr : (handleOneRpc deps st r).response with _ | ⟨i, v⟩ | ⟨i, c, m⟩
  · rw [hr] at hid; exact absurd hid (by simp [RpcResponse.idOf])
  · refine ⟨.result i v, ?_, ?_⟩
    · rw [hr] at hid
      simpa [RpcPayload.idOf, RpcResponse.idOf] using hid
    · rw [mcpBatchLoop_one_rpc, hr]; rfl
  · refine ⟨.error i c m, ?_, ?_⟩
    · rw [hr] at hid
      simpa [RpcPayload.idOf, RpcResponse.idOf] using hid
    · rw [mcpBatchLoop_one_rpc, hr]; rfl

lemma mcpBatchLoop_one_init (deps : ChatDeps) (st : Store) (r : JsonRpcRequest)
    (sse : Bool) (h : isInitNotif r = true) :
    mcpBatchLoop deps sse st [BatchItem.rpc r] = ([], st) := by
  have ha := handleOneRpc_ack deps st r h
  simp [mcpBatchLoop, itemJson, ha, respPayload]

/- ----------------------- Claim theorems ----------------------- -/

/-- C1: For every `tools/call` invocation of `chat_rlm_query` whose
trimmed `query` and `thread_id` are non-empty, if the context read
returns `C` and the backend call returns answer `A`, the text appended
to the thread is exactly a leading newline when `C` is non-empty
(nothing when `C` is empty) followed by `USER: ` + trimmed query +
newline + `ASSISTANT: ` + `A` + newline, the tool result content is
exactly `A`, and the stored log becomes the prior context followed by
that turn. -/
theorem chat_rlm_query_turn_format
    (deps : ChatDeps) (st : Store) (id? : Option JsonRpcId) (args : ToolArgs)
    (q t C A : String)
    (hq : args.query = some q) (ht : args.thread_id = some t)
    (hq' : jsTrim q ≠ "") (ht' : jsTrim t ≠ "")
    (hread : deps.readOk = true)
    (hC : st.read (jsTrim t) = C)
    (hA : deps.rlm C (jsTrim q) (jsTrim t) = Except.ok A)
    (happ : deps.appendOk = true) :
    (handleOneRpc deps st
      { jsonrpc := "2.0", id := id?, method := some "tools/call",
        params := some { name := some "chat_rlm_query",
                         arguments := some args } }).trace.appends
      = [(jsTrim t, (if C = "" then "" else "\n") ++ "USER: " ++ jsTrim q
          ++ "\nASSISTANT: " ++ A ++ "\n")] ∧
    (handleOneRpc deps st
      { jsonrpc := "2.0", id := id?, method := some "tools/call",
        params := some { name := some "chat_rlm_query",
                         arguments := some args } }).response
      = .result (id?.getD .null) (.content A) ∧
    (handleOneRpc deps st
      { jsonrpc := "2.0", id := id?, method := some "tools/call",
        params := some { name := some "chat_rlm_query",
                         arguments := some args } }).store.read (jsTrim t)
      = C ++ ((if C = "" then "" else "\n") ++ "USER: " ++ jsTrim q
          ++ "\nASSISTANT: " ++ A ++ "\n") := by
  subst hC
  have hb : handleOneRpc deps st
      { jsonrpc := "2.0", id := id?, method := some "tools/call",
        params := some { name := some "chat_rlm_query",
                         arguments := some args } }
      = chatRlmQuery deps st (id?.getD .null) (some args) := rfl
  rw [hb, chatRlmQuery_success deps st (id?.getD .null) args q t A
        hq ht hq' ht' hread hA happ]
  refine ⟨rfl, rfl, ?_⟩
  rw [Store.read_append_self]
  rfl

/-- C1 witness: with empty prior context, query `2+2?` and backend
answer `4`, the stored log becomes `USER: 2+2?\nASSISTANT: 4\n` and the
tool result content is `4`. -/
theorem chat_rlm_query_turn_format_witness :
    (handleOneRpc ⟨true, fun _ _ _ => Except.ok "4", true⟩ Store.init
      { jsonrpc := "2.0", id := some (.num 1), method := some "tools/call",
        params := some { name := some "chat_rlm_query",
                         arguments := some { query := some "2+2?",
                                             thread_id := some "th" } } }).store.read "th"
      = "USER: 2+2?\nASSISTANT: 4\n" ∧
    (handleOneRpc ⟨true, fun _ _ _ => Except.ok "4", true⟩ Store.init
      { jsonrpc := "2.0", id := some (.num 1), method := some "tools/call",
        params := some { name := some "chat_rlm_query",
                         arguments := some { query := some "2+2?",
                                             thread_id := some "th" } } }).response
      = .result (.num 1) (.content "4") := by
  have h := chat_rlm_query_turn_format ⟨true, fun _ _ _ => Except.ok "4", true⟩
    Store.init (some (.num 1))
    { query := some "2+2?", thread_id := some "th" }
    "2+2?" "th" "" "4" rfl rfl (by decide) (by decide) rfl rfl rfl rfl
  exact ⟨h.2.2, h.2.1⟩

/-- C2: For every `chat_rlm_query` invocation the internal order is
read, then backend call, then append. When the read fails no backend
call and no append is attempted and the log is unchanged; when the
backend call fails no append is attempted and the log is unchanged;
when the append fails the log is unchanged; and each failure surfaces
as a JSON-RPC error with code `-32000` carrying the underlying
failure's message. -/
theorem chat_rlm_query_failure_order
    (deps : ChatDeps) (st : Store) (id? : Option JsonRpcId) (args : ToolArgs)
    (q t : String)
    (hq : args.query = some q) (ht : args.thread_id = some t)
    (hq' : jsTrim q ≠ "") (ht' : jsTrim t ≠ "") :
    (deps.readOk = false →
      handleOneRpc deps st
        { jsonrpc := "2.0", id := id?, method := some "tools/call",
          params := some { name := some "chat_rlm_query",
                           arguments := some args } }
        = ⟨.error (id?.getD .null) (-32000) "Failed to read chat context",
           st, { reads := [jsTrim t] }⟩) ∧
    (∀ e, deps.readOk = true →
      deps.rlm (st.read (jsTrim t)) (jsTrim q) (jsTrim t) = Except.error e →
      handleOneRpc deps st
        { jsonrpc := "2.0", id := id?, method := some "tools/call",
          params := some { name := some "chat_rlm_query",
                           arguments := some args } }
        = ⟨.error (id?.getD .null) (-32000) e, st,
           { reads := [jsTrim t],
             calls := [(st.read (jsTrim t), jsTrim q, jsTrim t)] }⟩) ∧
    (∀ A, deps.readOk = true →
      deps.rlm (st.read (jsTrim t)) (jsTrim q) (jsTrim t) = Except.ok A →
      deps.appendOk = false →
      handleOneRpc deps st
        { jsonrpc := "2.0", id := id?, method := some "tools/call",
          params := some { name := some "chat_rlm_query",
                           arguments := some args } }
        = ⟨.error (id?.getD .null) (-32000) "Failed to append chat context",
           st,
           { reads := [jsTrim t],
             calls := [(st.read (jsTrim t), jsTrim q, jsTrim t)],
             appends := [(jsTrim t,
               chatTurn (st.read (jsTrim t)) (jsTrim q) A)] }⟩) := by
  refine ⟨?_, ?_, ?_⟩
  · intro hread
    exact chatRlmQuery_readFail deps st (id?.getD .null) args q t
      hq ht hq' ht' hread
  · intro e hread hA
    exact chatRlmQuery_rlmFail deps st (id?.getD .null) args q t e
      hq ht hq' ht' hread hA
  · intro A hread hA happ
    exact chatRlmQuery_appendFail deps st (id?.getD .null) args q t A
      hq ht hq' ht' hread hA happ

/-- C2 witness: a failing read, a failing backend call and a failing
append, each on query `2+2?` and thread `th`: the log stays untouched
(trace has no append in the first two cases) and the error is `-32000`
with the respective message. -/
theorem chat_rlm_query_failure_order_witness :
    handleOneRpc ⟨false, fun _ _ _ => Except.ok "4", true⟩ Store.init
      { jsonrpc := "2.0", id := some (.num 1), method := some "tools/call",
        params := some { name := some "chat_rlm_query",
                         arguments := some { query := some "2+2?",
                                             thread_id := some "th" } } }
      = ⟨.error (.num 1) (-32000) "Failed to read chat context",
         Store.init, { reads := ["th"] }⟩ ∧
    handleOneRpc ⟨true, fun _ _ _ => Except.error "boom", true⟩ Store.init
      { jsonrpc := "2.0", id := some (.num 1), method := some "tools/call",
        params := some { name := some "chat_rlm_query",
                         arguments := some { query := some "2+2?",
                                             thread_id := some "th" } } }
      = ⟨.error (.num 1) (-32000) "boom",
         Store.init, { reads := ["th"], calls := [("", "2+2?", "th")] }⟩ ∧
    handleOneRpc ⟨true, fun _ _ _ => Except.ok "4", false⟩ Store.init
      { jsonrpc := "2.0", id := some (.num 1), method := some "tools/call",
        params := some { name := some "chat_rlm_query",
                         arguments := some { query := some "2+2?",
                                             thread_id := some "th" } } }
      = ⟨.error (.num 1) (-32000) "Failed to append chat context",
         Store.init, { reads := ["th"], calls := [("", "2+2?", "th")],
                       appends := [("th", "USER: 2+2?\nASSISTANT: 4\n")] }⟩ := by
  refine ⟨?_, ?_, ?_⟩
  · exact (chat_rlm_query_failure_order ⟨false, fun _ _ _ => Except.ok "4", true⟩
      Store.init (some (.num 1)) { query := some "2+2?", thread_id := some "th" }
      "2+2?" "th" rfl rfl (by decide) (by decide)).1 rfl
  · exact (chat_rlm_query_failure_order ⟨true, fun _ _ _ => Except.error "boom", true⟩
      Store.init (some (.num 1)) { query := some "2+2?", thread_id := some "th" }
      "2+2?" "th" rfl rfl (by decide) (by decide)).2.1 "boom" rfl rfl
  · exact (chat_rlm_query_failure_order ⟨true, fun _ _ _ => Except.ok "4", false⟩
      Store.init (some (.num 1)) { query := some "2+2?", thread_id := some "th" }
      "2+2?" "th" rfl rfl (by decide) (by decide)).2.2 "4" rfl rfl rfl

/-- C7: For every `tools/call` invocation of `chat_rlm_query`, `query`
and `thread_id` are trimmed, and a missing or trim-empty value fails
with JSON-RPC error `-32602` with the store untouched and no read,
backend call or append attempted (empty trace). -/
theorem chat_rlm_query_invalid_params
    (deps : ChatDeps) (st : Store) (id? : Option JsonRpcId)
    (args : Option ToolArgs)
    (h : (args.bind fun a => a.query).map jsTrim = none ∨
         (args.bind fun a => a.query).map jsTrim = some "" ∨
         (args.bind fun a => a.thread_id).map jsTrim = none ∨
         (args.bind fun a => a.thread_id).map jsTrim = some "") :
    handleOneRpc deps st
      { jsonrpc := "2.0", id := id?, method := some "tools/call",
        params := some { name := some "chat_rlm_query",
                         arguments := args } }
      = ⟨.error (id?.getD .null) (-32602) "query and thread_id are required",
         st, {}⟩ :=
  chatRlmQuery_invalid deps st (id?.getD .null) args h

/-- C7 witness: a whitespace-only query `"   "` is rejected as if
empty, with error code `-32602` and no side effect. -/
theorem chat_rlm_query_invalid_params_witness :
    handleOneRpc ⟨true, fun _ _ _ => Except.ok "4", true⟩ Store.init
      { jsonrpc := "2.0", id := some (.num 1), method := some "tools/call",
        params := some { name := some "chat_rlm_query",
                         arguments := some { query := some "   ",
                                             thread_id := some "th" } } }
      = ⟨.error (.num 1) (-32602) "query and thread_id are required",
         Store.init, {}⟩ :=
  chat_rlm_query_invalid_params ⟨true, fun _ _ _ => Except.ok "4", true⟩
    Store.init (some (.num 1))
    (some { query := some "   ", thread_id := some "th" })
    (Or.inr (Or.inl (by decide)))

/-- C4: A failed connection attempt is retried up to exactly 20
attempts, each failure followed by a 250 ms delay, and when all
attempts are exhausted the call fails (502, surfaced as an error by
`callRlm`) carrying the last underlying failure; a non-2xx response
from a reachable backend is never retried — it fails on the first
attempt with the response body truncated to 400 characters embedded in
the error message. -/
theorem backend_retry_bound :
    (∀ (conn : Nat → ConnOutcome) (m : Nat → String),
       (∀ i, i < 20 → conn i = .conthrow (m i)) →
       rlmContainerFetch conn =
         { status := 502, body := m 19, attempts := 20, delayMs := 5000 }) ∧
    (∀ (conn : Nat → ConnOutcome) (parse : String → Option JVal)
       (stc : Nat) (b : String),
       conn 0 = .resp stc b → respOk stc = false →
       proxyCall conn parse =
         (Except.error ("RLM backend error (" ++ toString stc ++ "): "
            ++ jsSlice b 400), 1, 0)) := by
  constructor
  · intro conn m h
    have hall := rlmRetry_allThrow conn m 20 0 none
      (fun i _ h2 => h i (by omega)) (by omega)
    simpa using hall
  · intro conn parse stc b h0 hst
    unfold proxyCall rlmContainerFetch
    rw [show (20 : Nat) = 19 + 1 from rfl,
        rlmRetry_firstResp conn 0 19 none stc b h0]
    simp [callRlm, hst]

/-- C4 witness: a connection refused on every attempt is retried 20
times (5000 ms of delays) and fails with the 20th failure's message; a
reachable backend answering 500 fails at once with the body in the
message. -/
theorem backend_retry_bound_witness :
    rlmContainerFetch (fun i => .conthrow ("refused " ++ toString i)) =
      { status := 502, body := "refused 19", attempts := 20, delayMs := 5000 } ∧
    proxyCall (fun _ => .resp 500 "boom") (fun _ => none) =
      (Except.error "RLM backend error (500): boom", 1, 0) := by
  constructor
  · exact backend_retry_bound.1 (fun i => .conthrow ("refused " ++ toString i))
      (fun i => "refused " ++ toString i) (fun i _ => rfl)
  · exact backend_retry_bound.2 (fun _ => .resp 500 "boom") (fun _ => none)
      500 "boom" rfl (by decide)

/-- C8: On a 2xx backend response, a parsed JSON body without a
string-typed `answer` field fails with `Invalid RLM response`
(surfaced by the dispatcher as code `-32000`), and a string-typed
`answer` is returned exactly. -/
theorem callRlm_answer_validation :
    (∀ (resp : BackendResponse) (a : String),
       respOk resp.status = true → resp.answer = some (JVal.s a) →
       callRlm resp = Except.ok a) ∧
    (∀ resp : BackendResponse,
       respOk resp.status = true →
       (∀ a : String, resp.answer ≠ some (JVal.s a)) →
       callRlm resp = Except.error "Invalid RLM response") ∧
    (∀ (deps : ChatDeps) (st : Store) (id? : Option JsonRpcId)
       (args : ToolArgs) (q t : String),
       args.query = some q → args.thread_id = some t →
       jsTrim q ≠ "" → jsTrim t ≠ "" → deps.readOk = true →
       deps.rlm (st.read (jsTrim t)) (jsTrim q) (jsTrim t)
         = Except.error "Invalid RLM response" →
       (handleOneRpc deps st
         { jsonrpc := "2.0", id := id?, method := some "tools/call",
           params := some { name := some "chat_rlm_query",
                            arguments := some args } }).response
         = .error (id?.getD .null) (-32000) "Invalid RLM response") := by
  refine ⟨?_, ?_, ?_⟩
  · intro resp a h1 h2
    simp [callRlm, h1, h2]
  · intro resp h1 h2
    rcases h : resp.answer with _ | v
    · simp [callRlm, h1, h]
    · rcases v with a | n | bb | _
      · exact absurd h (h2 a)
      · simp [callRlm, h1, h]
      · simp [callRlm, h1, h]
      · simp [callRlm, h1, h]
  · intro deps st id? args q t hq ht hq' ht' hread hA
    exact congrArg DispatchOut.response
      (chatRlmQuery_rlmFail deps st (id?.getD .null) args q t
        "Invalid RLM response" hq ht hq' ht' hread hA)

/-- C8 witness: status 200 with `answer: "42"` yields `42`; status 200
with the number 7 as `answer` fails with `Invalid RLM response`, which
the dispatcher surfaces as `-32000`. -/
theorem callRlm_answer_validation_witness :
    callRlm { status := 200, bodyText := "", answer := some (JVal.s "42") }
      = Except.ok "42" ∧
    callRlm { status := 200, bodyText := "", answer := some (JVal.n 7) }
      = Except.error "Invalid RLM response" ∧
    (handleOneRpc ⟨true, fun _ _ _ => Except.error "Invalid RLM response", true⟩
      Store.init
      { jsonrpc := "2.0", id := some (.num 1), method := some "tools/call",
        params := some { name := some "chat_rlm_query",
                         arguments := some { query := some "2+2?",
                                             thread_id := some "th" } } }).response
      = .error (.num 1) (-32000) "Invalid RLM response" := by
  refine ⟨?_, ?_, ?_⟩
  · exact callRlm_answer_validation.1
      { status := 200, bodyText := "", answer := some (JVal.s "42") }
      "42" (by decide) rfl
  · exact callRlm_answer_validation.2.1
      { status := 200, bodyText := "", answer := some (JVal.n 7) }
      (by decide) (fun a => by simp)
  · exact callRlm_answer_validation.2.2
      ⟨true, fun _ _ _ => Except.error "Invalid RLM response", true⟩
      Store.init (some (.num 1))
      { query := some "2+2?", thread_id := some "th" }
      "2+2?" "th" rfl rfl (by decide) (by decide) rfl rfl

/-- C5: `read` on a never-appended key returns the empty string, and an
acknowledged `append` makes `read` return the previous log with the
text concatenated at the end — in particular the previous log remains
an initial segment of the new log. -/
theorem store_read_append :
    (∀ (ops : List (String × String)) (k : String),
       k ∉ ops.map Prod.fst →
       (Store.applyAppends Store.init ops).read k = "") ∧
    (∀ (s : Store) (k t : String),
       (s.append k t).read k = s.read k ++ t ∧
       ∃ u, (s.append k t).read k = s.read k ++ u) := by
  constructor
  · intro ops k h
    rw [Store.read_applyAppends_not_mem k ops Store.init h]
    rfl
  · intro s k t
    exact ⟨Store.read_append_self s k t, t, Store.read_append_self s k t⟩

/-- C5 witness: a key never appended to reads as empty even after other
keys were written; appending twice to one key accumulates in order. -/
theorem store_read_append_witness :
    (Store.applyAppends Store.init [("a", "x")]).read "b" = "" ∧
    ((Store.init.append "a" "x").append "a" "y").read "a" = "xy" := by
  constructor
  · exact store_read_append.1 [("a", "x")] "b" (by decide)
  · have h := (store_read_append.2 (Store.init.append "a" "x") "a" "y").1
    rw [h]
    rfl

/-- C10 counterexample: a present but non-string `text` (the JSON
number 42) is not treated as absent: the JavaScript template literal
coerces it, so the stored log changes from `log` to `log42` — the log
is not left unchanged as the claim states for non-string `text`. -/
theorem chat_store_append_nonstring_cex :
    chatStoreAppend (some (JVal.n 42)) "log" = ("log42", true) ∧
    ("log42" : String) ≠ "log" := by
  exact ⟨by decide, by decide⟩

/-- C10 amended: a POST to the append path whose body lacks the `text`
field, or carries an explicit JSON `null`, does not fail: the empty
string is appended, the stored log is unchanged and `ok: true` is
returned; a present non-string, non-null `text` is instead coerced to
its JavaScript string form and appended (still returning `ok: true`). -/
theorem chat_store_append_missing_text :
    (∀ current : String, chatStoreAppend none current = (current, true)) ∧
    (∀ current : String,
       chatStoreAppend (some JVal.null) current = (current, true)) ∧
    (∀ (current : String) (v : JVal), v ≠ JVal.null →
       chatStoreAppend (some v) current = (current ++ v.jsString, true)) := by
  refine ⟨?_, ?_, ?_⟩
  · intro current
    simp [chatStoreAppend]
  · intro current
    simp [chatStoreAppend]
  · intro current v hv
    rcases v with a | n | bb | _
    · rfl
    · rfl
    · rfl
    · exact absurd rfl hv

/-- C10 witness: an absent `text` leaves the log unchanged with
`ok: true`; a string `text` is appended verbatim. -/
theorem chat_store_append_missing_text_witness :
    chatStoreAppend none "log" = ("log", true) ∧
    chatStoreAppend (some (JVal.s "hi")) "log" = ("loghi", true) := by
  constructor
  · exact chat_store_append_missing_text.1 "log"
  · exact chat_store_append_missing_text.2.2 "log" (JVal.s "hi") (by decide)

/-- C6 counterexample: with `transcript = " hello "` the appended block
contains the trimmed transcript `hello`, not the raw transcript — the
raw string `" hello "` does not occur in the stored block at all. -/
theorem upload_context_raw_transcript_cex :
    (handleOneRpc ⟨true, fun _ _ _ => Except.ok "", true⟩ Store.init
      { jsonrpc := "2.0", id := some (.num 1), method := some "tools/call",
        params := some { name := some "upload_context",
                         arguments := some { transcript := some " hello ",
                                             session_id := some "s1" } } }).trace.appends
      = [("transcripts/s1",
          "\n[SESSION UPLOAD] s1 (developer: unknown)\nhello\n")] ∧
    ¬ (" hello ".data
        <:+: ("\n[SESSION UPLOAD] s1 (developer: unknown)\nhello\n").data) := by
  exact ⟨rfl, by decide⟩

/-- C6 amended: for every `tools/call` invocation of `upload_context`
with non-empty trimmed `transcript` and `session_id`: a missing or
trim-empty `thread_id` defaults to `transcripts`, a missing or empty
`developer` defaults to `unknown`, the storage key is exactly
`thread_id ++ "/" ++ session_id` (trimmed), the appended block tags the
session id and developer label together with the trimmed transcript,
and the confirmation message names the session, developer and thread. -/
theorem upload_context_semantics
    (deps : ChatDeps) (st : Store) (id? : Option JsonRpcId) (args : ToolArgs)
    (tr sid : String)
    (htr : args.transcript = some tr) (hs : args.session_id = some sid)
    (htr' : jsTrim tr ≠ "") (hs' : jsTrim sid ≠ "")
    (happ : deps.appendOk = true) :
    (handleOneRpc deps st
      { jsonrpc := "2.0", id := id?, method := some "tools/call",
        params := some { name := some "upload_context",
                         arguments := some args } })
      = (let threadId := match args.thread_id with
           | none => "transcripts"
           | some u => if jsTrim u = "" then "transcripts" else jsTrim u
         let developer := match args.developer with
           | none => "unknown"
           | some d => if d = "" then "unknown" else d
         let storeKey := threadId ++ "/" ++ jsTrim sid
         let turnText := "\n[SESSION UPLOAD] " ++ jsTrim sid
           ++ " (developer: " ++ developer ++ ")\n" ++ jsTrim tr ++ "\n"
         ⟨.result (id?.getD .null)
            (.content (uploadMsg (jsTrim sid) developer threadId)),
          st.append storeKey turnText,
          { appends := [(storeKey, turnText)] }⟩) :=
  uploadContext_success deps st (id?.getD .null) args tr sid htr hs htr' hs' happ

/-- C6 witness: `upload_context(transcript="hello", session_id="s1")`
with `thread_id` and `developer` absent stores under key
`transcripts/s1`, tags `developer: unknown`, and the confirmation names
session `s1`, developer `unknown` and thread `transcripts`. -/
theorem upload_context_semantics_witness :
    (handleOneRpc ⟨true, fun _ _ _ => Except.ok "", true⟩ Store.init
      { jsonrpc := "2.0", id := some (.num 1), method := some "tools/call",
        params := some { name := some "upload_context",
                         arguments := some { transcript := some "hello",
                                             session_id := some "s1" } } })
      = ⟨.result (.num 1) (.content (uploadMsg "s1" "unknown" "transcripts")),
         Store.init.append "transcripts/s1"
           "\n[SESSION UPLOAD] s1 (developer: unknown)\nhello\n",
         { appends := [("transcripts/s1",
             "\n[SESSION UPLOAD] s1 (developer: unknown)\nhello\n")] }⟩ :=
  upload_context_semantics ⟨true, fun _ _ _ => Except.ok "", true⟩ Store.init
    (some (.num 1)) { transcript := some "hello", session_id := some "s1" }
    "hello" "s1" rfl rfl (by decide) (by decide) rfl

/-- C9 counterexample: the envelope `{jsonrpc: "2.0", method: "ping"}`
with no identifier is a notification (identifier absent), yet it
receives a response body — a result envelope with identifier null —
rather than no body. -/
theorem notification_gets_body_cex :
    ({ jsonrpc := "2.0", method := some "ping" } : JsonRpcRequest).id = none ∧
    (handleOneRpc ⟨true, fun _ _ _ => Except.ok "", true⟩ Store.init
      { jsonrpc := "2.0", method := some "ping" }).response
      = .result .null .emptyResult := by
  exact ⟨rfl, rfl⟩

/-- C9 amended: an envelope with version `2.0` and method
`notifications/initialized` — whatever its identifier — receives no
response body, only the 202 transport acknowledgement; every other
envelope (including id-less notifications with other methods) receives
exactly one response envelope whose identifier equals the request's
identifier when present and null when absent. -/
theorem response_id_matching
    (deps : ChatDeps) (st : Store) (rpc : JsonRpcRequest) :
    (isInitNotif rpc = true → (handleOneRpc deps st rpc).response = .ack) ∧
    (isInitNotif rpc = false →
      (handleOneRpc deps st rpc).response.idOf = some (rpc.id.getD .null)) := by
  constructor
  · intro h
    rw [handleOneRpc_ack deps st rpc h]
  · intro h
    exact handleOneRpc_idOf deps st rpc h

/-- C9 witness: a `notifications/initialized` envelope carrying the
identifier 7 still gets only the acknowledgement, and a `ping` with
identifier 7 gets a body with identifier 7. -/
theorem response_id_matching_witness :
    (handleOneRpc ⟨true, fun _ _ _ => Except.ok "", true⟩ Store.init
      { jsonrpc := "2.0", id := some (.num 7),
        method := some "notifications/initialized" }).response = .ack ∧
    (handleOneRpc ⟨true, fun _ _ _ => Except.ok "", true⟩ Store.init
      { jsonrpc := "2.0", id := some (.num 7),
        method := some "ping" }).response.idOf = some (.num 7) := by
  constructor
  · exact (response_id_matching ⟨true, fun _ _ _ => Except.ok "", true⟩
      Store.init
      { jsonrpc := "2.0", id := some (.num 7),
        method := some "notifications/initialized" }).1 (by decide)
  · exact (response_id_matching ⟨true, fun _ _ _ => Except.ok "", true⟩
      Store.init
      { jsonrpc := "2.0", id := some (.num 7),
        method := some "ping" }).2 (by decide)

/-- C3 counterexample: a batch consisting of one id-less `ping`
notification yields an output array with one entry (identifier null),
although the batch contains no non-notification envelope — so the
output is not one entry per non-notification envelope. -/
theorem batch_notification_entry_cex :
    ({ jsonrpc := "2.0", method := some "ping" } : JsonRpcRequest).id = none ∧
    (handleMcpArray ⟨true, fun _ _ _ => Except.ok "", true⟩ false Store.init
      [BatchItem.rpc { jsonrpc := "2.0", method := some "ping" }]).1
      = { isSse := false,
          payloads := [RpcPayload.result .null .emptyResult] } := by
  exact ⟨rfl, rfl⟩

/-- C3 amended: batch envelopes are processed sequentially in input
order (the loop is a left-to-right fold: splitting the input splits the
output in the same order, threading the store); the batch response
itself is never SSE-framed; when the caller did not negotiate SSE, each
array element that is an envelope not of the `notifications/initialized`
form contributes exactly one result/error entry carrying its
identifier — id-less notifications with other methods included — while
non-object elements and `notifications/initialized` envelopes
contribute none; when the caller negotiated SSE, every per-item body is
SSE-framed, fails JSON re-parsing, and is dropped, so the output array
is empty. -/
theorem batch_sequential_order :
    (∀ (deps : ChatDeps) (sse : Bool) (st : Store) (items : List BatchItem),
       (handleMcpArray deps sse st items).1.isSse = false) ∧
    (∀ (deps : ChatDeps) (sse : Bool) (st : Store) (xs ys : List BatchItem),
       mcpBatchLoop deps sse st (xs ++ ys) =
         ((mcpBatchLoop deps sse st xs).1
            ++ (mcpBatchLoop deps sse (mcpBatchLoop deps sse st xs).2 ys).1,
          (mcpBatchLoop deps sse (mcpBatchLoop deps sse st xs).2 ys).2)) ∧
    (∀ (deps : ChatDeps) (st : Store) (r : JsonRpcRequest),
       isInitNotif r = false →
       ∃ p : RpcPayload, p.idOf = r.effId ∧
         mcpBatchLoop deps false st [BatchItem.rpc r]
           = ([p], (handleOneRpc deps st r).store)) ∧
    (∀ (deps : ChatDeps) (sse : Bool) (st : Store) (r : JsonRpcRequest),
       isInitNotif r = true →
       mcpBatchLoop deps sse st [BatchItem.rpc r] = ([], st)) ∧
    (∀ (deps : ChatDeps) (sse : Bool) (st : Store),
       mcpBatchLoop deps sse st [BatchItem.nonObject] = ([], st)) ∧
    (∀ (deps : ChatDeps) (st : Store) (items : List BatchItem),
       (mcpBatchLoop deps true st items).1 = []) := by
  refine ⟨?_, ?_, ?_, ?_, ?_, ?_⟩
  · intro deps sse st items
    rfl
  · intro deps sse st xs ys
    exact mcpBatchLoop_append deps sse xs ys st
  · intro deps st r h
    exact mcpBatchLoop_one_nonInit deps st r h
  · intro deps sse st r h
    exact mcpBatchLoop_one_init deps st r sse h
  · intro deps sse st
    rfl
  · intro deps st items
    exact mcpBatchLoop_sse deps items st

/-- C3 witness: an id-less `ping` notification in a JSON batch yields
exactly one entry with identifier null; a `notifications/initialized`
envelope in an SSE-negotiated batch yields none. -/
theorem batch_sequential_order_witness :
    (∃ p : RpcPayload, p.idOf = JsonRpcId.null ∧
       mcpBatchLoop ⟨true, fun _ _ _ => Except.ok "", true⟩ false Store.init
         [BatchItem.rpc { jsonrpc := "2.0", method := some "ping" }]
         = ([p], (handleOneRpc ⟨true, fun _ _ _ => Except.ok "", true⟩
             Store.init { jsonrpc := "2.0", method := some "ping" }).store)) ∧
    mcpBatchLoop ⟨true, fun _ _ _ => Except.ok "", true⟩ true Store.init
      [BatchItem.rpc { jsonrpc := "2.0",
                       method := some "notifications/initialized" }]
      = ([], Store.init) := by
  constructor
  · exact batch_sequential_order.2.2.1
      ⟨true, fun _ _ _ => Except.ok "", true⟩ Store.init
      { jsonrpc := "2.0", method := some "ping" } (by decide)
  · exact batch_sequential_order.2.2.2.1
      ⟨true, fun _ _ _ => Except.ok "", true⟩ true Store.init
      { jsonrpc := "2.0", method := some "notifications/initialized" }
      (by decide)
